import Mathlib

/-!
Shallow embedding of `diff_pdf_visually/diff.py`.

Python strings are modeled as lists of characters (`PyStr`).  Python floats
holding similarity scores are modeled by `Score`: either a rational number or
the INFINITY sentinel (`INFINITY = float of inf` in the source).  Python
float parsing (`float(...)`) is an explicit parameter `parseF` of the
functions that use it.  The external programs (`pdftocairo` and the
ImageMagick `compare` tool) are modeled by records describing one invocation:
the exit status and the files or log lines it produced.  Raised exceptions
(`ValueError`, `AssertionError`, `CalledProcessError`) are modeled with
`Except PyError`.
-/

deriving instance DecidableEq for Except

/-- Python strings, modeled as lists of characters. -/
abbrev PyStr := List Char

/-- Characters of a Lean string literal; used to write Python string constants. -/
def chars (s : String) : PyStr := s.data

/-- A similarity score: the INFINITY sentinel, or a finite value (modeled as a
rational number, since the code only ever parses, compares and minimizes these
floats). -/
inductive Score where
  | inf : Score
  | fin : ℚ → Score
deriving DecidableEq

/-- Python `min` of two scores under IEEE semantics for infinity: INFINITY is
the top element. -/
def Score.minS : Score → Score → Score
  | .inf, s => s
  | .fin p, .inf => .fin p
  | .fin p, .fin q => .fin (min p q)

/-- Model of `min(significances, default=INFINITY)` in `pdfdiff`. -/
def minDefaultInf (l : List Score) : Score := l.foldr Score.minS Score.inf

/-- Model of `min_significance <= threshold` where the threshold is a finite
float: INFINITY is not below any finite threshold. -/
def Score.leq : Score → ℚ → Bool
  | .inf, _ => false
  | .fin p, t => decide (p ≤ t)

/-- Negation of `Score.leq`: the score is strictly greater than the finite
threshold. -/
def Score.gtQ : Score → ℚ → Bool
  | .inf, _ => true
  | .fin p, t => decide (t < p)

/-- The exceptions the module can raise, one constructor per raise site. -/
inductive PyError where
  /-- `ValueError("destdir not clean: ...")` in `pdftopng`. -/
  | destdirNotClean : PyError
  /-- `CalledProcessError` from `verbose_run(..., check=True)` on `pdftocairo`. -/
  | pdftocairoFailed : PyError
  /-- `ValueError("compare crashed, status=...")` in `imgdiff`. -/
  | compareCrashed : Int → PyError
  /-- `ValueError("image widths or heights differ")` in `imgdiff`. -/
  | dimensionMismatch : PyError
  /-- `assert len(all_line) == 1` in `imgdiff`. -/
  | allLineAssert : PyError
  /-- `assert len(a_i) != len(b_i)` (the mishap-with-weird-page-numbers assert)
  in `pdfdiff`. -/
  | weirdPagesAssert : PyError
  /-- `assert len(a_i) > 0` in `pdfdiff`. -/
  | emptyPagesAssert : PyError
deriving DecidableEq

/-- Model of Python `substring in line` on strings. -/
def containsSub (needle : PyStr) : PyStr → Bool
  | [] => needle.isEmpty
  | c :: rest => needle.isPrefixOf (c :: rest) || containsSub needle rest

/-- Python `str.isspace` characters relevant to `str.strip()`. -/
def pyIsSpace (c : Char) : Bool :=
  c = ' ' || c = '\t' || c = '\n' || c = '\r' || c = '\x0b' || c = '\x0c'

/-- Model of Python `str.strip()`: remove leading and trailing whitespace. -/
def pyStrip (s : PyStr) : PyStr :=
  ((s.dropWhile pyIsSpace).reverse.dropWhile pyIsSpace).reverse

/-- Glob pattern `basename + asterisk` on a filename without path separators:
the filename starts with `basename`. -/
def globStar (basename f : PyStr) : Bool := basename.isPrefixOf f

/-- Glob pattern `basename + asterisk + ".png"`: the filename starts with
`basename` and the remainder ends in `".png"`. -/
def globStarPng (basename f : PyStr) : Bool :=
  basename.isPrefixOf f && (chars ".png").isSuffixOf (f.drop basename.length)

/-- The Python slice `s[len(basename)+1:-4]` used by `pdftopng` to turn a
generated filename into a page id: drop the basename plus one separator
character, and drop the 4-character `.png` extension. -/
def extractPageId (basename : PyStr) (s : PyStr) : PyStr :=
  let t := s.drop (basename.length + 1)
  t.take (t.length - 4)

/-- One invocation of the external rasterizer `pdftocairo`: whether it exited
with status 0, and the filenames it created in the destination directory. -/
structure RasterRun where
  exitOk : Bool
  produced : List PyStr
deriving DecidableEq

/-- Model of `pdftopng(sourcepath, destdir, basename, verbosity, dpi)`.

The destination directory content before the run is `destdirFiles`; the
external invocation is `run`.  Mirrors the source line by line: the dirty
destination check on `glob(basename + asterisk)` happens before the tool is
invoked; `check=True` turns a nonzero exit into an exception; afterwards the
generated filenames matching `glob(basename + asterisk + ".png")` are sorted
lexicographically and each is sliced down to its page id.  Verbosity and dpi
only affect printing and the command line, not the result, and are omitted. -/
def pdftopng (destdirFiles : List PyStr) (basename : PyStr) (run : RasterRun) :
    Except PyError (List PyStr) :=
  if (destdirFiles.filter (fun f => globStar basename f)) ≠ [] then
    .error .destdirNotClean
  else if !run.exitOk then
    .error .pdftocairoFailed
  else
    let afterFiles := destdirFiles ++ run.produced
    let numbers :=
      List.insertionSort (· ≤ ·) (afterFiles.filter (fun f => globStarPng basename f))
    .ok (numbers.map (fun s => extractPageId basename s))

/-- One invocation of the ImageMagick `compare` tool: the subprocess return
code (an integer, negative when killed by a signal) and the lines of the log
file it wrote (as produced by `readlines`, so trailing newlines included). -/
structure CompareRun where
  returncode : Int
  logLines : List PyStr

/-- The fixed label `"    all: "` searched for in the compare log. -/
def allLabel : PyStr := chars "    all: "

/-- The dimension mismatch message searched for in the compare log. -/
def dimMsg : PyStr := chars "image widths or heights differ"

/-- The log parsing part of `imgdiff`, everything after the return code check:
dimension mismatch detection, the exactly-one `"    all: "` line assertion,
and turning the stripped token into a score, where the literal token `0` maps
to INFINITY and anything else goes through `float(...)` (the parameter
`parseF`). -/
def parseLog (run : CompareRun) (parseF : PyStr → ℚ) : Except PyError Score :=
  if run.logLines.any (fun l => containsSub dimMsg l) then
    .error .dimensionMismatch
  else
    match run.logLines.filter (fun l => allLabel.isPrefixOf l) with
    | [l] =>
      let allStr := pyStrip (l.drop allLabel.length)
      .ok (if allStr = chars "0" then Score.inf else Score.fin (parseF allStr))
    | _ => .error .allLineAssert

/-- Model of `imgdiff(a, b, diff, log, print_cmds)`.  The file path arguments
only locate the invocation and its log, so the model takes the invocation
record directly; a return code above 1 is a crash of the tool, anything else
proceeds to log parsing. -/
def imgdiff (run : CompareRun) (parseF : PyStr → ℚ) : Except PyError Score :=
  if run.returncode > 1 then .error (.compareCrashed run.returncode)
  else parseLog run parseF

/-- The filename `basename ++ "-" ++ pageno ++ ".png"`, as built by the
format strings for the per-page image paths in `pdfdiff`. -/
def pageImageName (basename pageno : PyStr) : PyStr :=
  basename ++ chars "-" ++ pageno ++ chars ".png"

/-- Environment of one `pdfdiff` call: the two rasterizer invocations (for
prefixes `a` and `b`), the compare invocation as a function of the two
per-page image paths, and the float parser. -/
structure PipelineEnv where
  aRun : RasterRun
  bRun : RasterRun
  compareAt : PyStr → PyStr → CompareRun
  parseF : PyStr → ℚ

/-- The per-page comparison loop of `pdfdiff`: for each page id, call
`imgdiff` on the reconstructed image paths, collecting scores; any exception
aborts the loop. -/
def collectScores (env : PipelineEnv) : List PyStr → Except PyError (List Score)
  | [] => .ok []
  | pageno :: rest => do
    let s ← imgdiff
      (env.compareAt (pageImageName (chars "a") pageno) (pageImageName (chars "b") pageno))
      env.parseF
    let others ← collectScores env rest
    .ok (s :: others)

/-- Model of `pdfdiff(a, b, threshold, ...)`.

The temporary directory starts empty, so both `pdftopng` calls see no
pre-existing files; the two calls use the disjoint prefixes `a` and `b`.
Mirrors the source: unequal page id lists of equal length trip the
mishap assert, unequal lengths return `False`; an empty common list trips
`assert len(a_i) > 0`; otherwise the scores are collected page by page, and
the verdict is `not (min(significances, default=INFINITY) <= threshold)`.
Verbosity printing and the inspection sleep do not affect the result and are
omitted. -/
def pdfdiff (env : PipelineEnv) (threshold : ℚ) : Except PyError Bool := do
  let a_i ← pdftopng [] (chars "a") env.aRun
  let b_i ← pdftopng [] (chars "b") env.bRun
  if a_i ≠ b_i then
    if a_i.length = b_i.length then .error .weirdPagesAssert
    else .ok false
  else if a_i.length = 0 then .error .emptyPagesAssert
  else do
    let significances ← collectScores env a_i
    let significant := (minDefaultInf significances).leq threshold
    .ok (!significant)

/-! Helper lemmas. -/

theorem ok_bind {ε α β : Type} (a : α) (f : α → Except ε β) :
    (Except.ok a : Except ε α) >>= f = f a := rfl

theorem error_bind {ε α β : Type} (e : ε) (f : α → Except ε β) :
    (Except.error e : Except ε α) >>= f = .error e := rfl

theorem Score.not_leq (s : Score) (t : ℚ) : (!s.leq t) = s.gtQ t := by
  cases s with
  | inf => rfl
  | fin p =>
    simp only [Score.leq, Score.gtQ, ← decide_not, decide_eq_decide]
    exact not_le

/-- Under equal, nonempty page lists and a successful score collection,
`pdfdiff` returns the boolean saying whether the minimum score is strictly
above the threshold. -/
theorem pdfdiff_eq_of_collect
    (aR bR : RasterRun) (cmp : PyStr → PyStr → CompareRun) (pf : PyStr → ℚ)
    (t : ℚ) (l : List PyStr) (scores : List Score)
    (hA : pdftopng [] (chars "a") aR = .ok l)
    (hB : pdftopng [] (chars "b") bR = .ok l)
    (hne : l ≠ [])
    (hs : collectScores ⟨aR, bR, cmp, pf⟩ l = .ok scores) :
    pdfdiff ⟨aR, bR, cmp, pf⟩ t = .ok ((minDefaultInf scores).gtQ t) := by
  have hlen : ¬ (l.length = 0) := by
    simpa [List.length_eq_zero] using hne
  simp only [pdfdiff, hA, hB, ok_bind]
  rw [if_neg (fun h => h rfl), if_neg hlen, hs, ok_bind, Score.not_leq]

/-- C1: for documents whose page-id lists are equal and non-empty, the verdict
is True if and only if the minimum collected score is strictly greater than
the threshold, and a minimum equal to the threshold yields False. -/
theorem pdfdiff_verdict_iff_min_gt_threshold
    (aR bR : RasterRun) (cmp : PyStr → PyStr → CompareRun) (pf : PyStr → ℚ)
    (t : ℚ) (l : List PyStr) (scores : List Score)
    (hA : pdftopng [] (chars "a") aR = .ok l)
    (hB : pdftopng [] (chars "b") bR = .ok l)
    (hne : l ≠ [])
    (hs : collectScores ⟨aR, bR, cmp, pf⟩ l = .ok scores) :
    (pdfdiff ⟨aR, bR, cmp, pf⟩ t = .ok true ↔ (minDefaultInf scores).gtQ t = true)
    ∧ (minDefaultInf scores = .fin t → pdfdiff ⟨aR, bR, cmp, pf⟩ t = .ok false) := by
  have hmain := pdfdiff_eq_of_collect aR bR cmp pf t l scores hA hB hne hs
  constructor
  · rw [hmain]
    simp
  · intro hmin
    rw [hmain, hmin]
    simp [Score.gtQ]

/-- Witness for C1 at a concrete one-page input with score 12.5 and
threshold 10. -/
theorem pdfdiff_verdict_iff_min_gt_threshold_witness :
    pdfdiff ⟨⟨true, [chars "a-1.png"]⟩, ⟨true, [chars "b-1.png"]⟩,
        (fun _ _ => ⟨0, [chars "    all: 12.5\n"]⟩), (fun _ => 12)⟩ 10
      = .ok true :=
  (pdfdiff_verdict_iff_min_gt_threshold
    ⟨true, [chars "a-1.png"]⟩ ⟨true, [chars "b-1.png"]⟩
    (fun _ _ => ⟨0, [chars "    all: 12.5\n"]⟩) (fun _ => 12)
    10 [chars "1"] [Score.fin (12)]
    (by decide) (by decide) (by decide) (by decide)).1.mpr (by decide)

/-- C2 counterexample: rasterizations producing the unequal page-id lists
`["1"]` and `["2"]` (equal length one) make `pdfdiff` halt with the
weird-page-numbers assertion instead of returning the verdict False. -/
theorem pdfdiff_unequal_lists_not_always_false :
    pdftopng [] (chars "a") ⟨true, [chars "a-1.png"]⟩ = .ok [chars "1"]
    ∧ pdftopng [] (chars "b") ⟨true, [chars "b-2.png"]⟩ = .ok [chars "2"]
    ∧ ([chars "1"] : List PyStr) ≠ [chars "2"]
    ∧ pdfdiff ⟨⟨true, [chars "a-1.png"]⟩, ⟨true, [chars "b-2.png"]⟩,
        (fun _ _ => ⟨0, []⟩), (fun _ => 0)⟩ 10 = .error .weirdPagesAssert := by
  refine ⟨by decide, by decide, by decide, by decide⟩

/-- C2 amended: rasterizations producing page-id lists of unequal length make
`pdfdiff` return False, for every comparator environment (so no per-page
comparison is consulted); unequal lists of equal length instead trip an
assertion. -/
theorem pdfdiff_unequal_length_false
    (aR bR : RasterRun) (cmp : PyStr → PyStr → CompareRun) (pf : PyStr → ℚ)
    (t : ℚ) (la lb : List PyStr)
    (hA : pdftopng [] (chars "a") aR = .ok la)
    (hB : pdftopng [] (chars "b") bR = .ok lb)
    (hlen : la.length ≠ lb.length) :
    pdfdiff ⟨aR, bR, cmp, pf⟩ t = .ok false := by
  have hne : la ≠ lb := fun h => hlen (by rw [h])
  simp only [pdfdiff, hA, hB, ok_bind]
  rw [if_pos hne, if_neg hlen]

/-- Witness for the amended C2: one page against two pages gives False. -/
theorem pdfdiff_unequal_length_false_witness :
    pdfdiff ⟨⟨true, [chars "a-1.png"]⟩, ⟨true, [chars "b-1.png", chars "b-2.png"]⟩,
        (fun _ _ => ⟨0, []⟩), (fun _ => 0)⟩ 10 = .ok false :=
  pdfdiff_unequal_length_false _ _ _ _ 10 [chars "1"] [chars "1", chars "2"]
    (by decide) (by decide) (by decide)

/-- C8: page-id lists unequal in content but equal in length make `pdfdiff`
halt with the internal weird-page-numbers assertion, not a boolean verdict
and not a recoverable ValueError. -/
theorem pdfdiff_equal_length_unequal_asserts
    (aR bR : RasterRun) (cmp : PyStr → PyStr → CompareRun) (pf : PyStr → ℚ)
    (t : ℚ) (la lb : List PyStr)
    (hA : pdftopng [] (chars "a") aR = .ok la)
    (hB : pdftopng [] (chars "b") bR = .ok lb)
    (hne : la ≠ lb) (hlen : la.length = lb.length) :
    pdfdiff ⟨aR, bR, cmp, pf⟩ t = .error .weirdPagesAssert := by
  simp only [pdfdiff, hA, hB, ok_bind]
  rw [if_pos hne, if_pos hlen]

/-- Witness for C8 at the single-page lists `["1"]` and `["2"]`. -/
theorem pdfdiff_equal_length_unequal_asserts_witness :
    pdfdiff ⟨⟨true, [chars "a-1.png"]⟩, ⟨true, [chars "b-2.png"]⟩,
        (fun _ _ => ⟨1, []⟩), (fun _ => 0)⟩ 5 = .error .weirdPagesAssert :=
  pdfdiff_equal_length_unequal_asserts _ _ _ _ 5 [chars "1"] [chars "2"]
    (by decide) (by decide) (by decide) (by decide)

/-- C9: the minimum over zero collected scores is the INFINITY sentinel, and
two zero-page documents trip the `assert len(a_i) > 0` guard instead of
producing a verdict. -/
theorem pdfdiff_zero_pages
    (aR bR : RasterRun) (cmp : PyStr → PyStr → CompareRun) (pf : PyStr → ℚ) (t : ℚ)
    (hA : pdftopng [] (chars "a") aR = .ok [])
    (hB : pdftopng [] (chars "b") bR = .ok []) :
    minDefaultInf [] = Score.inf
    ∧ pdfdiff ⟨aR, bR, cmp, pf⟩ t = .error .emptyPagesAssert := by
  refine ⟨rfl, ?_⟩
  simp [pdfdiff, hA, hB, ok_bind]

/-- Witness for C9: rasterizations producing no pages at all. -/
theorem pdfdiff_zero_pages_witness :
    minDefaultInf [] = Score.inf
    ∧ pdfdiff ⟨⟨true, []⟩, ⟨true, []⟩, (fun _ _ => ⟨0, []⟩), (fun _ => 0)⟩ 10
      = .error .emptyPagesAssert :=
  pdfdiff_zero_pages _ _ _ _ 10 (by decide) (by decide)

/-- Under a non-crash return code, a mismatch-free log and a unique label
line `l`, `imgdiff` returns the INFINITY sentinel or the parsed token,
depending on whether the stripped text after the label is the literal `0`. -/
theorem imgdiff_token_cases
    (run : CompareRun) (pf : PyStr → ℚ) (l : PyStr)
    (hrc : run.returncode ≤ 1)
    (hdim : run.logLines.any (fun ln => containsSub dimMsg ln) = false)
    (hall : run.logLines.filter (fun ln => allLabel.isPrefixOf ln) = [l]) :
    imgdiff run pf
      = .ok (if pyStrip (l.drop allLabel.length) = chars "0" then Score.inf
             else Score.fin (pf (pyStrip (l.drop allLabel.length)))) := by
  have hbase : imgdiff run pf = parseLog run pf := by
    unfold imgdiff
    rw [if_neg (by omega)]
  rw [hbase]
  unfold parseLog
  rw [hall]
  simp [hdim]

/-- C3: if the stripped text after the unique label line is the literal token
`0`, the score is the INFINITY sentinel (which differs from the numeric value
zero); for any other token the score is that token run through `float(...)`. -/
theorem imgdiff_zero_token_infinite
    (run : CompareRun) (pf : PyStr → ℚ) (l : PyStr)
    (hrc : run.returncode ≤ 1)
    (hdim : run.logLines.any (fun ln => containsSub dimMsg ln) = false)
    (hall : run.logLines.filter (fun ln => allLabel.isPrefixOf ln) = [l]) :
    (pyStrip (l.drop allLabel.length) = chars "0" → imgdiff run pf = .ok Score.inf)
    ∧ (∀ tk, pyStrip (l.drop allLabel.length) = tk → tk ≠ chars "0" →
        imgdiff run pf = .ok (Score.fin (pf tk)))
    ∧ (∀ q : ℚ, Score.inf ≠ Score.fin q) := by
  have hmain := imgdiff_token_cases run pf l hrc hdim hall
  refine ⟨?_, ?_, fun q h => by cases h⟩
  · intro h0
    rw [hmain, if_pos h0]
  · intro tk htk hne
    rw [hmain, htk, if_neg hne]

/-- Witness for C3: the log token `0` yields INFINITY, the log token `17`
yields the parsed value 17. -/
theorem imgdiff_zero_token_infinite_witness :
    imgdiff ⟨1, [chars "    all: 0\n"]⟩ (fun _ => 0) = .ok Score.inf
    ∧ imgdiff ⟨0, [chars "    all: 17\n"]⟩ (fun tk => if tk = chars "17" then 17 else 0)
      = .ok (Score.fin 17) :=
  ⟨(imgdiff_zero_token_infinite ⟨1, [chars "    all: 0\n"]⟩ (fun _ => 0)
      (chars "    all: 0\n") (by decide) (by decide) (by decide)).1 (by decide),
   (imgdiff_zero_token_infinite ⟨0, [chars "    all: 17\n"]⟩
      (fun tk => if tk = chars "17" then 17 else 0)
      (chars "    all: 17\n") (by decide) (by decide) (by decide)).2.1
      (chars "17") (by decide) (by decide)⟩

/-- C4: `imgdiff` reports a crash of the external tool exactly when the return
code is strictly greater than 1, and return code 1 proceeds to log parsing. -/
theorem imgdiff_crash_iff_status_gt_one (run : CompareRun) (pf : PyStr → ℚ) :
    ((∃ st, imgdiff run pf = .error (.compareCrashed st)) ↔ 1 < run.returncode)
    ∧ (run.returncode = 1 → imgdiff run pf = parseLog run pf) := by
  have hnc : ∀ st, parseLog run pf ≠ .error (.compareCrashed st) := by
    intro st
    unfold parseLog
    split
    · simp
    · split
      · simp
      · simp
  constructor
  · constructor
    · rintro ⟨st, hst⟩
      by_contra hle
      have hbase : imgdiff run pf = parseLog run pf := by
        unfold imgdiff
        rw [if_neg hle]
      rw [hbase] at hst
      exact hnc st hst
    · intro hgt
      refine ⟨run.returncode, ?_⟩
      unfold imgdiff
      rw [if_pos hgt]
  · intro h1
    unfold imgdiff
    rw [if_neg (by omega)]

/-- Witness for C4: return code 5 crashes, return code 1 parses the log. -/
theorem imgdiff_crash_iff_status_gt_one_witness :
    (∃ st, imgdiff ⟨5, [chars "    all: 3\n"]⟩ (fun _ => 3) = .error (.compareCrashed st))
    ∧ imgdiff ⟨1, [chars "    all: 3\n"]⟩ (fun _ => 3)
      = parseLog ⟨1, [chars "    all: 3\n"]⟩ (fun _ => 3) :=
  ⟨(imgdiff_crash_iff_status_gt_one ⟨5, [chars "    all: 3\n"]⟩ (fun _ => 3)).1.mpr
      (by decide),
   (imgdiff_crash_iff_status_gt_one ⟨1, [chars "    all: 3\n"]⟩ (fun _ => 3)).2 rfl⟩

/-- C5: a log line containing the dimension mismatch message makes `imgdiff`
raise the dimension mismatch error, never a score, and a `pdfdiff` whose
first page comparison is that invocation aborts with the same error. -/
theorem imgdiff_dimension_mismatch_aborts
    (run : CompareRun) (pf : PyStr → ℚ) (p : PyStr) (ps : List PyStr)
    (aR bR : RasterRun) (cmp : PyStr → PyStr → CompareRun) (t : ℚ)
    (hrc : run.returncode ≤ 1)
    (hdim : run.logLines.any (fun ln => containsSub dimMsg ln) = true)
    (hA : pdftopng [] (chars "a") aR = .ok (p :: ps))
    (hB : pdftopng [] (chars "b") bR = .ok (p :: ps))
    (hcmp : cmp (pageImageName (chars "a") p) (pageImageName (chars "b") p) = run) :
    imgdiff run pf = .error .dimensionMismatch
    ∧ (∀ s, imgdiff run pf ≠ .ok s)
    ∧ pdfdiff ⟨aR, bR, cmp, pf⟩ t = .error .dimensionMismatch := by
  have himg : imgdiff run pf = .error .dimensionMismatch := by
    unfold imgdiff
    rw [if_neg (by omega)]
    unfold parseLog
    rw [if_pos hdim]
  refine ⟨himg, ?_, ?_⟩
  · intro s h
    rw [himg] at h
    cases h
  have hcol : collectScores ⟨aR, bR, cmp, pf⟩ (p :: ps) = .error .dimensionMismatch := by
    simp only [collectScores]
    rw [hcmp, himg, error_bind]
  simp only [pdfdiff, hA, hB, ok_bind]
  rw [if_neg (fun h => h rfl), if_neg (by simp), hcol, error_bind]

/-- Witness for C5 at a one-page comparison with a mismatch log line. -/
theorem imgdiff_dimension_mismatch_aborts_witness :
    pdfdiff ⟨⟨true, [chars "a-1.png"]⟩, ⟨true, [chars "b-1.png"]⟩,
        (fun _ _ => ⟨0, [chars "compare: image widths or heights differ.\n"]⟩),
        (fun _ => 0)⟩ 10
      = .error .dimensionMismatch :=
  (imgdiff_dimension_mismatch_aborts
    ⟨0, [chars "compare: image widths or heights differ.\n"]⟩ (fun _ => 0)
    (chars "1") [] ⟨true, [chars "a-1.png"]⟩ ⟨true, [chars "b-1.png"]⟩
    (fun _ _ => ⟨0, [chars "compare: image widths or heights differ.\n"]⟩) 10
    (by decide) (by decide) (by decide) (by decide) rfl).2.2

/-- Helper: a Boolean `any` over a list matches a nonempty `filter`. -/
theorem any_iff_filter_ne_nil (p : PyStr → Bool) (l : List PyStr) :
    l.any p = true ↔ l.filter p ≠ [] := by
  simp [List.any_eq_true, List.filter_eq_nil_iff]

/-- C6: a destination directory already holding a file whose name starts with
the basename makes `pdftopng` fail with the dirty destination error, whatever
the external rasterizer would do; a clean directory never yields that error. -/
theorem pdftopng_dirty_destination
    (files : List PyStr) (basename : PyStr) (run : RasterRun) :
    (files.any (fun f => globStar basename f) = true →
      pdftopng files basename run = .error .destdirNotClean)
    ∧ (files.any (fun f => globStar basename f) = false →
      pdftopng files basename run ≠ .error .destdirNotClean) := by
  constructor
  · intro hdirty
    unfold pdftopng
    rw [if_pos ((any_iff_filter_ne_nil _ _).mp hdirty)]
  · intro hclean
    have hnil : files.filter (fun f => globStar basename f) = [] := by
      by_contra hne
      rw [(any_iff_filter_ne_nil _ _).mpr hne] at hclean
      cases hclean
    unfold pdftopng
    rw [if_neg (fun h => h hnil)]
    split
    · simp
    · simp

/-- Witness for C6: a stale file matching the prefix is rejected, an unrelated
file is not. -/
theorem pdftopng_dirty_destination_witness :
    pdftopng [chars "a-stale.png"] (chars "a") ⟨true, []⟩ = .error .destdirNotClean
    ∧ pdftopng [chars "other.txt"] (chars "a") ⟨true, [chars "a-1.png"]⟩
      ≠ .error .destdirNotClean :=
  ⟨(pdftopng_dirty_destination [chars "a-stale.png"] (chars "a") ⟨true, []⟩).1
      (by decide),
   (pdftopng_dirty_destination [chars "other.txt"] (chars "a")
      ⟨true, [chars "a-1.png"]⟩).2 (by decide)⟩

/-- C7: the page ids returned by `pdftopng` are the matched filenames in
lexicographic filename order, sliced down to ids: some lexicographically
sorted permutation of the matched png filenames maps onto the result.  At the
concrete generated filenames `a-10.png` and `a-2.png` the returned ids are
`10` before `2`: a string sort, not a numeric sort of page numbers. -/
theorem pdftopng_lexicographic_filename_order
    (files : List PyStr) (basename : PyStr) (run : RasterRun) (ids : List PyStr)
    (h : pdftopng files basename run = .ok ids) :
    (∃ names : List PyStr,
      List.Perm names ((files ++ run.produced).filter (fun f => globStarPng basename f))
      ∧ List.Sorted (· ≤ ·) names
      ∧ ids = names.map (extractPageId basename))
    ∧ pdftopng [] (chars "a") ⟨true, [chars "a-10.png", chars "a-2.png"]⟩
      = .ok [chars "10", chars "2"] := by
  refine ⟨?_, by decide⟩
  simp only [pdftopng] at h
  split at h
  · exact absurd h (by simp)
  · split at h
    · exact absurd h (by simp)
    · injection h with h'
      refine ⟨List.insertionSort (· ≤ ·)
        ((files ++ run.produced).filter (fun f => globStarPng basename f)),
        List.perm_insertionSort _ _, List.sorted_insertionSort _ _, h'.symm⟩

/-- Witness for C7 at the two-page rasterization with pages 2 and 10. -/
theorem pdftopng_lexicographic_filename_order_witness :
    pdftopng [] (chars "a") ⟨true, [chars "a-10.png", chars "a-2.png"]⟩
      = .ok [chars "10", chars "2"] :=
  (pdftopng_lexicographic_filename_order []
    (chars "a") ⟨true, [chars "a-10.png", chars "a-2.png"]⟩
    [chars "10", chars "2"] (by decide)).2

/-- Helper: `pdftopng` on a clean directory where the tool produced one
matching file returns the sliced page id of that file. -/
theorem pdftopng_singleton (basename f : PyStr) (hm : globStarPng basename f = true) :
    pdftopng [] basename ⟨true, [f]⟩ = .ok [extractPageId basename f] := by
  unfold pdftopng
  rw [if_neg (fun h => h rfl)]
  simp [hm, List.insertionSort, List.orderedInsert]

/-- Helper: the page-id slice of a filename made of the basename, one
separator character, a page id and the `.png` extension recovers the page id. -/
theorem extractPageId_eq (basename pid : PyStr) (sep : Char) :
    extractPageId basename (basename ++ [sep] ++ pid ++ chars ".png") = pid := by
  have h1 : basename ++ [sep] ++ pid ++ chars ".png"
      = (basename ++ [sep]) ++ (pid ++ chars ".png") := by
    simp [List.append_assoc]
  have h2 : (basename ++ [sep]).length = basename.length + 1 := by simp
  simp only [extractPageId]
  rw [h1, ← h2, List.drop_left]
  show List.take ((pid ++ chars ".png").length - 4) (pid ++ chars ".png") = pid
  have h0 : (chars ".png").length = 4 := rfl
  have h3 : (pid ++ chars ".png").length - 4 = pid.length := by
    simp [List.length_append, h0]
  rw [h3, List.take_left]

/-- C10: a generated filename of the shape basename, one separator character,
page id, `.png` passes the glob of `pdftopng` and is sliced back to exactly
the page id; the per-page path that `pdfdiff` rebuilds from that id equals
the generated filename precisely when the separator is the dash character. -/
theorem pdftopng_pageImageName_roundtrip
    (basename pid : PyStr) (sep : Char) :
    (pdftopng [] basename ⟨true, [basename ++ [sep] ++ pid ++ chars ".png"]⟩
      = .ok [pid])
    ∧ (pageImageName basename pid = basename ++ [sep] ++ pid ++ chars ".png"
        ↔ sep = '-') := by
  have hdash : chars "-" = ['-'] := rfl
  have hassoc : basename ++ [sep] ++ pid ++ chars ".png"
      = basename ++ ([sep] ++ (pid ++ chars ".png")) := by
    simp [List.append_assoc]
  constructor
  · have hm : globStarPng basename (basename ++ [sep] ++ pid ++ chars ".png") = true := by
      unfold globStarPng
      refine (Bool.and_eq_true _ _).mpr ⟨?_, ?_⟩
      · rw [List.isPrefixOf_iff_prefix, hassoc]
        exact ⟨[sep] ++ (pid ++ chars ".png"), rfl⟩
      · rw [hassoc, List.drop_left, List.isSuffixOf_iff_suffix]
        have h4 : [sep] ++ (pid ++ chars ".png") = ([sep] ++ pid) ++ chars ".png" := by
          simp [List.append_assoc]
        rw [h4]
        exact List.suffix_append _ _
    rw [pdftopng_singleton basename _ hm, extractPageId_eq]
  · unfold pageImageName
    constructor
    · intro h
      rw [hdash] at h
      have h5 : ('-' : Char) :: (pid ++ chars ".png") = sep :: (pid ++ chars ".png") := by
        simpa using h
      injection h5 with h6
      exact h6.symm
    · intro h
      rw [h, hdash]

/-- Witness for C10 at basename `a`, page id `10`, dash separator. -/
theorem pdftopng_pageImageName_roundtrip_witness :
    pdftopng [] (chars "a") ⟨true, [chars "a" ++ ['-'] ++ chars "10" ++ chars ".png"]⟩
      = .ok [chars "10"] :=
  (pdftopng_pageImageName_roundtrip (chars "a") (chars "10") '-').1
